import Mathlib

/-!
Shallow embedding of `pkg/cloud/scope/machine.go` from
`cluster-api-provider-aws` (MachineScope: construction, accessors,
mutators, tag merge, commit), together with models of the external
collaborators the file calls into (provider-ID parser, control-plane
predicate, patch helper, backing store), taken from the specification's
collaborator contracts where their code is not part of the analyzed
fragment.
-/

set_option autoImplicit false

/-- A Go `map[string]string` value: `none` is the nil map, `some l` a
(possibly empty) map whose entries are the association list `l`. -/
abbrev GoStrMap := Option (List (String × String))

/-- Lookup in the association list backing a Go map: first entry with the
key wins (well-formed Go maps have no duplicate keys). -/
def mapLookup : List (String × String) → String → Option String
  | [], _ => none
  | (k2, v) :: rest, k => if k2 = k then some v else mapLookup rest k

/-- Upsert into the association list backing a Go map: `m[k] = v`
replaces the existing entry for `k` or appends a new one. -/
def mapInsert : List (String × String) → String → String → List (String × String)
  | [], k, v => [(k, v)]
  | (k2, v2) :: rest, k, v =>
    if k2 = k then (k, v) :: rest else (k2, v2) :: mapInsert rest k v

/-- Lookup through a possibly-nil Go map (`m[k]` on a nil map yields the
zero value / absent). -/
def gmLookup : GoStrMap → String → Option String
  | none, _ => none
  | some l, k => mapLookup l k

/-- `metav1.ObjectMeta`: the identifying metadata carried by every
record (only the fields `machine.go` reads or writes). -/
structure ObjectMeta where
  Name : String
  Namespace : String
  Labels : GoStrMap
  Annotations : GoStrMap
deriving DecidableEq, Repr

/-- `clusterv1.Machine`: the owner machine; `machine.go` only consults
its labels (through `util.IsControlPlaneMachine`). -/
structure Machine where
  ObjectMeta : ObjectMeta
deriving DecidableEq, Repr

/-- `clusterv1.Cluster`: required collaborator, not otherwise read by
`machine.go`. -/
structure Cluster where
  ObjectMeta : ObjectMeta
deriving DecidableEq, Repr

/-- `infrav1.AWSClusterSpec`: only `AdditionalTags` is used. -/
structure AWSClusterSpec where
  AdditionalTags : GoStrMap
deriving DecidableEq, Repr

/-- `infrav1.AWSCluster`. -/
structure AWSCluster where
  Spec : AWSClusterSpec
deriving DecidableEq, Repr

/-- `infrav1.InstanceState` (`type InstanceState string`). -/
structure InstanceState where
  state : String
deriving DecidableEq, Repr

/-- `capierrors.MachineStatusError` (a string enumeration). -/
structure MachineStatusError where
  reason : String
deriving DecidableEq, Repr

/-- `corev1.NodeAddress` (address type and address). -/
structure NodeAddress where
  addrType : String
  Address : String
deriving DecidableEq, Repr

/-- `infrav1.AWSMachineSpec`: the fields `machine.go` touches. -/
structure AWSMachineSpec where
  ProviderID : Option String
  AdditionalTags : GoStrMap
deriving DecidableEq, Repr

/-- `infrav1.AWSMachineStatus`: the fields `machine.go` touches. -/
structure AWSMachineStatus where
  Ready : Bool
  Addresses : List NodeAddress
  ErrorReason : Option MachineStatusError
  ErrorMessage : Option String
  InstanceState : Option InstanceState
deriving DecidableEq, Repr

/-- `infrav1.AWSMachine`: the machine record this scope manages. -/
structure AWSMachine where
  ObjectMeta : ObjectMeta
  Spec : AWSMachineSpec
  Status : AWSMachineStatus
deriving DecidableEq, Repr

/-- The backing-store client handle (`client.Client`): an opaque handle;
the store's behavior is supplied explicitly at commit time. -/
structure Client where
  clientId : Nat
deriving DecidableEq, Repr

/-- `logr.Logger`: `klogr` is the default constructed when none is
supplied. -/
inductive Logger
  | klogr
  | custom (n : Nat)
deriving DecidableEq, Repr

/-- `noderefutil.ProviderID`: the parsed form of a provider-ID string
(`scheme://.../identifier`), held as character lists so everything
reduces structurally. -/
structure ProviderID where
  original : List Char
  cloudProvider : List Char
  id : List Char
deriving DecidableEq, Repr

/-- Scan for the first occurrence of `"://"`: returns the characters
before it (the scheme) and the characters after it. -/
def breakScheme : List Char → Option (List Char × List Char)
  | [] => none
  | c :: rest =>
    if c = ':' then
      match rest with
      | '/' :: '/' :: tail => some ([], tail)
      | _ => (breakScheme rest).map (fun p => (c :: p.1, p.2))
    else (breakScheme rest).map (fun p => (c :: p.1, p.2))

/-- The characters after the last `'/'` of the whole string (the whole
string when it has no `'/'`). -/
def lastSegment (l : List Char) : List Char :=
  (l.reverse.takeWhile (fun c => c ≠ '/')).reverse

/-- Modelled from the spec: the provider-ID parser collaborator
(`noderefutil.NewProviderID`, not part of the analyzed fragment) —
"parses the stored provider-ID string into `scheme`/`identifier` parts",
failing on an empty string, a string without `"://"`, or an empty
scheme/identifier; per the glossary the identifier is the last
`/`-separated segment (`"aws:///us-east-1a/i-0123"` parses to
identifier `"i-0123"`). -/
def NewProviderID (s : String) : Option ProviderID :=
  let cs := s.data
  if cs.isEmpty then none
  else
    match breakScheme cs with
    | none => none
    | some (scheme, _) =>
      let cid := lastSegment cs
      if scheme.isEmpty || cid.isEmpty then none
      else some { original := cs, cloudProvider := scheme, id := cid }

/-- `ProviderID.ID()`: the parsed identifier as a string. -/
def ProviderID.ID (p : ProviderID) : String := String.mk p.id

/-- The identity the patch helper captures at construction time: the
"before" snapshot of the machine record, plus the client it will write
through. -/
structure PatchHelper where
  client : Client
  beforeState : AWSMachine
deriving DecidableEq, Repr

/-- `MachineScope` (from `machine.go`): logger, backing-store client,
patch helper, and the four records it mediates. -/
structure MachineScope where
  Logger : Logger
  client : Client
  patchHelper : PatchHelper
  Cluster : Cluster
  Machine : Machine
  AWSCluster : AWSCluster
  AWSMachine : AWSMachine
deriving DecidableEq, Repr

/-- `MachineScope.Name()`. -/
def MachineScope.Name (m : MachineScope) : String := m.AWSMachine.ObjectMeta.Name

/-- `MachineScope.Namespace()`. -/
def MachineScope.Namespace (m : MachineScope) : String := m.AWSMachine.ObjectMeta.Namespace

/-- The control-plane label key (`clusterv1.MachineControlPlaneLabelName`). -/
def MachineControlPlaneLabelName : String := "cluster.x-k8s.io/control-plane"

/-- Modelled from the spec: the owner-machine role source collaborator
(`util.IsControlPlaneMachine`, not part of the analyzed fragment) —
"exposes a boolean is-control-plane derivable from labels": the marker
label is present on the owner machine. -/
def IsControlPlaneMachine (machine : Machine) : Bool :=
  (gmLookup machine.ObjectMeta.Labels MachineControlPlaneLabelName).isSome

/-- `MachineScope.IsControlPlane()`: delegates to the shared predicate. -/
def MachineScope.IsControlPlane (m : MachineScope) : Bool :=
  IsControlPlaneMachine m.Machine

/-- `MachineScope.Role()`: `"control-plane"` when the shared predicate
holds, `"node"` otherwise. -/
def MachineScope.Role (m : MachineScope) : String :=
  if IsControlPlaneMachine m.Machine then "control-plane" else "node"

/-- `MachineScope.GetProviderID()`: the stored string, or `""` when the
pointer is nil. -/
def MachineScope.GetProviderID (m : MachineScope) : String :=
  match m.AWSMachine.Spec.ProviderID with
  | some v => v
  | none => ""

/-- `MachineScope.GetInstanceID()`: parses `GetProviderID()`; a parse
error becomes `none` (nil pointer), success becomes the parsed ID. -/
def MachineScope.GetInstanceID (m : MachineScope) : Option String :=
  match NewProviderID m.GetProviderID with
  | none => none
  | some parsed => some (ProviderID.ID parsed)

/-- `MachineScope.SetProviderID(v)`: stores `&v` in the spec. -/
def MachineScope.SetProviderID (m : MachineScope) (v : String) : MachineScope :=
  { m with AWSMachine :=
      { m.AWSMachine with Spec := { m.AWSMachine.Spec with ProviderID := some v } } }

/-- `MachineScope.GetInstanceState()`. -/
def MachineScope.GetInstanceState (m : MachineScope) : Option InstanceState :=
  m.AWSMachine.Status.InstanceState

/-- `MachineScope.SetInstanceState(v)`: stores the address of the
by-value parameter, i.e. a copy of the caller's value. -/
def MachineScope.SetInstanceState (m : MachineScope) (v : InstanceState) : MachineScope :=
  { m with AWSMachine :=
      { m.AWSMachine with Status := { m.AWSMachine.Status with InstanceState := some v } } }

/-- `MachineScope.SetReady()`: sets the ready flag to `true`. -/
def MachineScope.SetReady (m : MachineScope) : MachineScope :=
  { m with AWSMachine :=
      { m.AWSMachine with Status := { m.AWSMachine.Status with Ready := true } } }

/-- `MachineScope.SetErrorMessage(v)`: stores `v.Error()` (errors are
modelled by their message string). -/
def MachineScope.SetErrorMessage (m : MachineScope) (v : String) : MachineScope :=
  { m with AWSMachine :=
      { m.AWSMachine with Status := { m.AWSMachine.Status with ErrorMessage := some v } } }

/-- `MachineScope.SetErrorReason(v)`. -/
def MachineScope.SetErrorReason (m : MachineScope) (v : MachineStatusError) : MachineScope :=
  { m with AWSMachine :=
      { m.AWSMachine with Status := { m.AWSMachine.Status with ErrorReason := some v } } }

/-- `MachineScope.SetAnnotation(key, value)` (declared at top level; the
receiver is the first argument): replaces a nil annotation map with an
empty one, then upserts the key. -/
def SetAnnotation (m : MachineScope) (key value : String) : MachineScope :=
  let current := match m.AWSMachine.ObjectMeta.Annotations with
    | none => []
    | some l => l
  { m with AWSMachine :=
      { m.AWSMachine with ObjectMeta :=
          { m.AWSMachine.ObjectMeta with Annotations := some (mapInsert current key value) } } }

/-- `MachineScope.SetAddresses(addrs)`: full replacement. -/
def MachineScope.SetAddresses (m : MachineScope) (addrs : List NodeAddress) : MachineScope :=
  { m with AWSMachine :=
      { m.AWSMachine with Status := { m.AWSMachine.Status with Addresses := addrs } } }

/-- Modelled from the spec: `Tags.Merge` (repository code outside the
analyzed file, `api/v1alpha2` tags) — "merge means upsert-by-key (later
merge wins ties)": every entry of `other` is upserted into the receiver
`t`; a nil `other` contributes nothing. -/
def Tags.Merge (t : List (String × String)) (other : GoStrMap) : List (String × String) :=
  (other.getD []).foldl (fun acc kv => mapInsert acc kv.1 kv.2) t

/-- `MachineScope.AdditionalTags()`: `make(Tags)` (a non-nil empty map),
then merge the cluster-wide tags, then the machine's. -/
def MachineScope.AdditionalTags (m : MachineScope) : GoStrMap :=
  some ( Tags.Merge ( Tags.Merge [] m.AWSCluster.Spec.AdditionalTags)
      m.AWSMachine.Spec.AdditionalTags)

/-- `MachineScopeParams`: the input bundle; every collaborator a Go nil
could hide is optional. -/
structure MachineScopeParams where
  Client : Option Client
  Logger : Option Logger
  Cluster : Option Cluster
  Machine : Option Machine
  AWSCluster : Option AWSCluster
  AWSMachine : Option AWSMachine
deriving DecidableEq, Repr

/-- Modelled from the spec: the fallible serialization step inside
`patch.NewHelper` (external collaborator) — "construction must fail
(wrapping the lower-level error) if the helper cannot be initialized
from the current record shape". `convertErr r = some e` means converting
record `r` to its comparable form fails with cause `e`. -/
structure SnapshotEnv where
  convertErr : AWSMachine → Option String

/-- Modelled from the spec: `patch.NewHelper(resource, client)` — on
success the helper is bound to the record's current field values (the
"before" snapshot); otherwise it reports the conversion error. -/
def NewHelper (env : SnapshotEnv) (resource : AWSMachine) (crClient : Client) :
    Except String PatchHelper :=
  match env.convertErr resource with
  | some e => Except.error e
  | none => Except.ok { client := crClient, beforeState := resource }

/-- `errors.Wrap(err, msg)`: message prefixing. -/
def errWrap (msg cause : String) : String := msg ++ ": " ++ cause

/-- `NewMachineScope(params)` from `machine.go`: nil checks in source
order, logger defaulting, patch-helper construction, then the scope. -/
def NewMachineScope (env : SnapshotEnv) (params : MachineScopeParams) :
    Except String MachineScope :=
  match params.Client with
  | none => Except.error "client is required when creating a MachineScope"
  | some cl =>
    match params.Machine with
    | none => Except.error "machine is required when creating a MachineScope"
    | some mach =>
      match params.Cluster with
      | none => Except.error "cluster is required when creating a MachineScope"
      | some clus =>
        match params.AWSMachine with
        | none => Except.error "aws machine is required when creating a MachineScope"
        | some awsm =>
          match params.AWSCluster with
          | none => Except.error "aws cluster is required when creating a MachineScope"
          | some awscl =>
            let logger := params.Logger.getD Logger.klogr
            match NewHelper env awsm cl with
            | Except.error e => Except.error (errWrap "failed to init patch helper" e)
            | Except.ok helper =>
              Except.ok { Logger := logger, client := cl, patchHelper := helper,
                          Cluster := clus, Machine := mach,
                          AWSCluster := awscl, AWSMachine := awsm }

/-- A Go `context.Context` as far as this fragment distinguishes them:
the fixed `context.TODO()` background context, or a context supplied by
a caller (carrying cancellation/timeout identity). -/
inductive Ctx
  | todo
  | callerSupplied (n : Nat)
deriving DecidableEq, Repr

/-- Whether a context is one a caller supplied (as opposed to the fixed
background `context.TODO()`). -/
def Ctx.isCallerSupplied : Ctx → Bool
  | Ctx.todo => false
  | Ctx.callerSupplied _ => true

/-- The backing store: the persisted machine record. -/
structure Store where
  stored : Option AWSMachine
deriving DecidableEq, Repr

/-- `CommitError` from the spec's taxonomy: wraps either a conflict
(conditional write rejected) or a transport failure, carrying the
backing store's cause. -/
inductive CommitError
  | conflict (cause : String)
  | transport (cause : String)
deriving DecidableEq, Repr

/-- The backing store's response to one conditional write, chosen by the
environment: accepted, rejected as conflicting, or failed in transport. -/
inductive StoreResp
  | accepted
  | rejected (cause : String)
  | failed (cause : String)
deriving DecidableEq, Repr

/-- One conditional-write call observed at the backing store: the
context it was given and the before/after pair the patch document is
computed from. -/
structure PatchCall where
  ctx : Ctx
  docBefore : AWSMachine
  docAfter : AWSMachine
deriving DecidableEq, Repr

/-- Outcome of a commit: the returned result, the store afterwards, and
the conditional-write calls made. -/
structure CloseResult where
  result : Except CommitError Unit
  store : Store
  calls : List PatchCall
deriving Repr

/-- Modelled from the spec: `patch.Helper.Patch(ctx, obj)` (external
collaborator) — one conditional write of the patch computed from the
captured "before" snapshot and the current `obj`; on acceptance the
store now holds the "after" state; on rejection or transport failure it
returns a `CommitError` wrapping the cause and the store is untouched;
no retry. -/
def PatchHelper.Patch (h : PatchHelper) (ctx : Ctx) (obj : AWSMachine)
    (store : Store) (resp : StoreResp) : CloseResult :=
  let call : PatchCall := { ctx := ctx, docBefore := h.beforeState, docAfter := obj }
  match resp with
  | StoreResp.accepted =>
    { result := Except.ok (), store := { stored := some obj }, calls := [call] }
  | StoreResp.rejected cause =>
    { result := Except.error (CommitError.conflict cause), store := store, calls := [call] }
  | StoreResp.failed cause =>
    { result := Except.error (CommitError.transport cause), store := store, calls := [call] }

/-- `MachineScope.Close()` from `machine.go`:
`return m.patchHelper.Patch(context.TODO(), m.AWSMachine)`. -/
def MachineScope.Close (m : MachineScope) (store : Store) (resp : StoreResp) : CloseResult :=
  m.patchHelper.Patch Ctx.todo m.AWSMachine store resp

/-- The required collaborators `NewMachineScope` checks for, in the
order the claim states them. -/
inductive MissingInput
  | client
  | machine
  | cluster
  | awsMachine
  | awsCluster
deriving DecidableEq, Repr

/-- The `MissingInputError` message naming a missing collaborator, as
produced by `NewMachineScope`. -/
def missingMsg : MissingInput → String
  | MissingInput.client => "client is required when creating a MachineScope"
  | MissingInput.machine => "machine is required when creating a MachineScope"
  | MissingInput.cluster => "cluster is required when creating a MachineScope"
  | MissingInput.awsMachine => "aws machine is required when creating a MachineScope"
  | MissingInput.awsCluster => "aws cluster is required when creating a MachineScope"

/-- Specification-side definition (follows the claim's words, for
comparison with `NewMachineScope`): the first absent required
collaborator in the fixed order client, machine, cluster,
machine-record, cluster-record. -/
def firstMissing (p : MachineScopeParams) : Option MissingInput :=
  if p.Client = none then some MissingInput.client
  else if p.Machine = none then some MissingInput.machine
  else if p.Cluster = none then some MissingInput.cluster
  else if p.AWSMachine = none then some MissingInput.awsMachine
  else if p.AWSCluster = none then some MissingInput.awsCluster
  else none

/-- Keys of the association list backing a Go map are pairwise
distinct (true of every real Go map). -/
def keysNodup (l : List (String × String)) : Prop :=
  (l.map Prod.fst).Nodup

instance (l : List (String × String)) : Decidable (keysNodup l) :=
  List.nodupDecidable (l.map Prod.fst)

/-- All scope components other than the machine record: logger, client,
captured patch helper (the before snapshot), cluster record, owner
machine, cluster-level record. `framePreserved m m2` says a step from
`m` to `m2` left them all unchanged. -/
def framePreserved (m m2 : MachineScope) : Prop :=
  m2.Logger = m.Logger ∧ m2.client = m.client ∧ m2.patchHelper = m.patchHelper ∧
  m2.Cluster = m.Cluster ∧ m2.Machine = m.Machine ∧ m2.AWSCluster = m.AWSCluster

/-- Sample metadata with no labels and no annotations. -/
def sampleMeta : ObjectMeta :=
  { Name := "machine-0", Namespace := "default", Labels := none, Annotations := none }

/-- Sample machine record: no provider ID, one additional tag. -/
def sampleAWSMachine : AWSMachine :=
  { ObjectMeta := sampleMeta,
    Spec := { ProviderID := none, AdditionalTags := some [("env", "dev")] },
    Status := { Ready := false, Addresses := [], ErrorReason := none,
                ErrorMessage := none, InstanceState := none } }

/-- Sample backing-store client handle. -/
def sampleClient : Client := { clientId := 0 }

/-- Sample owner machine (no control-plane marker). -/
def sampleMachine : Machine := { ObjectMeta := sampleMeta }

/-- Sample cluster record. -/
def sampleCluster : Cluster := { ObjectMeta := sampleMeta }

/-- Sample cluster-level record: cluster-wide tags env=prod, team=x. -/
def sampleAWSCluster : AWSCluster :=
  { Spec := { AdditionalTags := some [("env", "prod"), ("team", "x")] } }

/-- Sample scope assembled from the sample records. -/
def sampleScope : MachineScope :=
  { Logger := Logger.klogr, client := sampleClient,
    patchHelper := { client := sampleClient, beforeState := sampleAWSMachine },
    Cluster := sampleCluster, Machine := sampleMachine,
    AWSCluster := sampleAWSCluster, AWSMachine := sampleAWSMachine }

/-- Sample backing store holding the sample record. -/
def sampleStore : Store := { stored := some sampleAWSMachine }

/-- Sample environment whose record conversion always succeeds. -/
def sampleEnv : SnapshotEnv := { convertErr := fun _ => none }

/-- Sample environment whose record conversion always fails. -/
def sampleEnvFail : SnapshotEnv := { convertErr := fun _ => some "conversion failed" }

/-- An input bundle with every collaborator present. -/
def fullParams : MachineScopeParams :=
  { Client := some sampleClient, Logger := none, Cluster := some sampleCluster,
    Machine := some sampleMachine, AWSCluster := some sampleAWSCluster,
    AWSMachine := some sampleAWSMachine }

/-- An input bundle missing only the backing-store client. -/
def noClientParams : MachineScopeParams :=
  { Client := none, Logger := none, Cluster := some sampleCluster,
    Machine := some sampleMachine, AWSCluster := some sampleAWSCluster,
    AWSMachine := some sampleAWSMachine }

theorem mapLookup_mapInsert_self (m : List (String × String)) (k v : String) :
    mapLookup (mapInsert m k v) k = some v := by
  induction m with
  | nil => simp [mapInsert, mapLookup]
  | cons kv rest ih =>
    obtain ⟨k2, v2⟩ := kv
    by_cases h : k2 = k
    · simp [mapInsert, h, mapLookup]
    · simp [mapInsert, h, mapLookup, ih]

theorem mapLookup_mapInsert_ne (m : List (String × String)) (k v k2 : String)
    (h : k ≠ k2) : mapLookup (mapInsert m k v) k2 = mapLookup m k2 := by
  induction m with
  | nil => simp [mapInsert, mapLookup, h]
  | cons kv rest ih =>
    obtain ⟨k3, v3⟩ := kv
    by_cases h3 : k3 = k
    · subst h3
      simp [mapInsert, mapLookup, h]
    · by_cases h32 : k3 = k2 <;> simp [mapInsert, mapLookup, h3, h32, Ne.symm h, ih]

theorem mapLookup_eq_none_of_not_mem (l : List (String × String)) (k : String)
    (h : k ∉ l.map Prod.fst) : mapLookup l k = none := by
  induction l with
  | nil => rfl
  | cons kv rest ih =>
    obtain ⟨k2, v2⟩ := kv
    simp only [List.map_cons, List.mem_cons, not_or] at h
    have hne : k2 ≠ k := fun he => h.1 he.symm
    simp [mapLookup, hne, ih h.2]

theorem mapLookup_foldl_insert (other : List (String × String)) (t : List (String × String))
    (k : String) (h : keysNodup other) :
    mapLookup (List.foldl (fun acc kv => mapInsert acc kv.1 kv.2) t other) k =
      match mapLookup other k with
      | some v => some v
      | none => mapLookup t k := by
  induction other generalizing t with
  | nil => simp [mapLookup]
  | cons kv rest ih =>
    obtain ⟨k0, v0⟩ := kv
    have hn := h
    simp only [keysNodup, List.map_cons, List.nodup_cons] at hn
    have hrest : keysNodup rest := hn.2
    by_cases hk : k0 = k
    · subst hk
      rw [List.foldl_cons, ih (mapInsert t k0 v0) hrest]
      have hnone : mapLookup rest k0 = none :=
        mapLookup_eq_none_of_not_mem rest k0 hn.1
      simp [mapLookup, hnone, mapLookup_mapInsert_self]
    · rw [List.foldl_cons, ih (mapInsert t k0 v0) hrest]
      have hne : mapLookup (mapInsert t k0 v0) k = mapLookup t k :=
        mapLookup_mapInsert_ne t k0 v0 k hk
      cases hr : mapLookup rest k <;> simp [mapLookup, hk, hr, hne]

theorem gmLookup_eq_getD (m : GoStrMap) (k : String) :
    gmLookup m k = mapLookup (m.getD []) k := by
  cases m <;> simp [gmLookup, mapLookup]

theorem tagsMerge_lookup (t : List (String × String)) (other : GoStrMap) (k : String)
    (h : keysNodup (other.getD [])) :
    mapLookup ( Tags.Merge t other) k =
      match gmLookup other k with
      | some v => some v
      | none => mapLookup t k := by
  rw [Tags.Merge, mapLookup_foldl_insert (other.getD []) t k h, gmLookup_eq_getD]

/-- C4: on any scope, `SetProviderID "aws:///us-east-1a/i-0123"` followed
by `GetInstanceID` returns `some "i-0123"`, while
`SetProviderID "not-a-valid-id"` followed by `GetInstanceID` returns
`none` (absent, not an error). -/
theorem setProviderID_getInstanceID (m : MachineScope) :
    MachineScope.GetInstanceID ( MachineScope.SetProviderID m "aws:///us-east-1a/i-0123") =
      some "i-0123" ∧
    MachineScope.GetInstanceID ( MachineScope.SetProviderID m "not-a-valid-id") = none := by
  constructor <;>
    · simp only [MachineScope.GetInstanceID, MachineScope.GetProviderID,
        MachineScope.SetProviderID]
      decide

/-- C5: `GetProviderID` returns the stored provider-ID string (the empty
string when the field is unset) and never fails, and `GetInstanceID`
returns `none` (not an error) whenever the stored string is absent or
fails to parse — parse failures never propagate. -/
theorem getProviderID_getInstanceID_total (m : MachineScope) :
    MachineScope.GetProviderID m = (m.AWSMachine.Spec.ProviderID).getD "" ∧
    (m.AWSMachine.Spec.ProviderID = none → MachineScope.GetInstanceID m = none) ∧
    (NewProviderID ( MachineScope.GetProviderID m) = none →
      MachineScope.GetInstanceID m = none) := by
  refine ⟨?_, ?_, ?_⟩
  · cases h : m.AWSMachine.Spec.ProviderID <;> simp [MachineScope.GetProviderID, h]
  · intro h
    have hempty : NewProviderID "" = none := by decide
    simp [MachineScope.GetInstanceID, MachineScope.GetProviderID, h, hempty]
  · intro h
    simp [MachineScope.GetInstanceID, h]

/-- Witness for C5 at the sample scope (whose provider ID is unset). -/
theorem getProviderID_getInstanceID_total_witness :
    MachineScope.GetProviderID sampleScope = "" ∧
    MachineScope.GetInstanceID sampleScope = none := by
  have h := getProviderID_getInstanceID_total sampleScope
  exact ⟨h.1.trans (by decide), h.2.1 rfl⟩

/-- C6: `Role()` returns `"control-plane"` iff `IsControlPlane()` is
true, returns `"node"` iff it is false, and an absent role marker
resolves to `"node"`; the two operations never disagree. -/
theorem role_iff_isControlPlane (m : MachineScope) :
    ( MachineScope.Role m = "control-plane" ↔ MachineScope.IsControlPlane m = true) ∧
    ( MachineScope.Role m = "node" ↔ MachineScope.IsControlPlane m = false) ∧
    (gmLookup m.Machine.ObjectMeta.Labels MachineControlPlaneLabelName = none →
      MachineScope.Role m = "node") := by
  refine ⟨?_, ?_, ?_⟩
  · cases hb : IsControlPlaneMachine m.Machine <;>
      simp [MachineScope.Role, MachineScope.IsControlPlane, hb]
  · cases hb : IsControlPlaneMachine m.Machine <;>
      simp [MachineScope.Role, MachineScope.IsControlPlane, hb]
  · intro h
    have hb : IsControlPlaneMachine m.Machine = false := by
      simp [IsControlPlaneMachine, h]
    simp [MachineScope.Role, hb]

/-- Witness for C6 at the sample scope (whose owner machine has no
control-plane marker). -/
theorem role_iff_isControlPlane_witness : MachineScope.Role sampleScope = "node" :=
  (role_iff_isControlPlane sampleScope).2.2 rfl

/-- C7: after `SetAnnotation key value` the annotation mapping is
non-nil and maps `key` to `value` (even when it was unset before), and
two calls with the same key leave only the latest value for that key. -/
theorem setAnn_upsert (m : MachineScope) (k v v1 v2 : String) :
    (( SetAnnotation m k v).AWSMachine.ObjectMeta.Annotations).isSome = true ∧
    gmLookup (( SetAnnotation m k v).AWSMachine.ObjectMeta.Annotations) k = some v ∧
    gmLookup (( SetAnnotation ( SetAnnotation m k v1) k v2).AWSMachine.ObjectMeta.Annotations)
      k = some v2 := by
  refine ⟨?_, ?_, ?_⟩ <;>
    simp [ SetAnnotation, gmLookup, mapLookup_mapInsert_self]

/-- C2: for every input bundle missing at least one required
collaborator, construction fails with the `MissingInputError` naming the
first absent one in the fixed order client, machine, cluster,
machine-record, cluster-record, and no scope is returned. -/
theorem newMachineScope_missing_input (env : SnapshotEnv) (p : MachineScopeParams)
    (h : p.Client = none ∨ p.Machine = none ∨ p.Cluster = none ∨
         p.AWSMachine = none ∨ p.AWSCluster = none) :
    ∃ f, firstMissing p = some f ∧
      NewMachineScope env p = Except.error (missingMsg f) := by
  cases hc : p.Client with
  | none =>
    exact ⟨MissingInput.client, by simp [firstMissing, hc],
           by simp [NewMachineScope, hc, missingMsg]⟩
  | some cl =>
    cases hm : p.Machine with
    | none =>
      exact ⟨MissingInput.machine, by simp [firstMissing, hc, hm],
             by simp [NewMachineScope, hc, hm, missingMsg]⟩
    | some mach =>
      cases hcl : p.Cluster with
      | none =>
        exact ⟨MissingInput.cluster, by simp [firstMissing, hc, hm, hcl],
               by simp [NewMachineScope, hc, hm, hcl, missingMsg]⟩
      | some clus =>
        cases ham : p.AWSMachine with
        | none =>
          exact ⟨MissingInput.awsMachine, by simp [firstMissing, hc, hm, hcl, ham],
                 by simp [NewMachineScope, hc, hm, hcl, ham, missingMsg]⟩
        | some awsm =>
          cases hac : p.AWSCluster with
          | none =>
            exact ⟨MissingInput.awsCluster,
                   by simp [firstMissing, hc, hm, hcl, ham, hac],
                   by simp [NewMachineScope, hc, hm, hcl, ham, hac, missingMsg]⟩
          | some awscl =>
            rcases h with h | h | h | h | h <;> simp_all

/-- Witness for C2: the bundle missing only the client fails naming the
client. -/
theorem newMachineScope_missing_input_witness :
    ∃ f, firstMissing noClientParams = some f ∧
      NewMachineScope sampleEnv noClientParams = Except.error (missingMsg f) :=
  newMachineScope_missing_input sampleEnv noClientParams (Or.inl rfl)

/-- C8: with all five required collaborators present, construction fails
(wrapping the lower-level error) exactly when the patch helper cannot be
initialized from the current record, and otherwise succeeds with the
helper bound to the record passed in, as captured before any caller
mutation. -/
theorem newMachineScope_helper_init (env : SnapshotEnv) (p : MachineScopeParams)
    (cl : Client) (mach : Machine) (clus : Cluster) (awsm : AWSMachine)
    (awscl : AWSCluster) (hc : p.Client = some cl) (hm : p.Machine = some mach)
    (hcl : p.Cluster = some clus) (ham : p.AWSMachine = some awsm)
    (hac : p.AWSCluster = some awscl) :
    (∀ e, env.convertErr awsm = some e →
      NewMachineScope env p = Except.error (errWrap "failed to init patch helper" e)) ∧
    (env.convertErr awsm = none →
      NewMachineScope env p = Except.ok
        { Logger := p.Logger.getD Logger.klogr, client := cl,
          patchHelper := { client := cl, beforeState := awsm },
          Cluster := clus, Machine := mach, AWSCluster := awscl,
          AWSMachine := awsm }) := by
  constructor
  · intro e he
    simp [NewMachineScope, hc, hm, hcl, ham, hac, NewHelper, he]
  · intro hnone
    simp [NewMachineScope, hc, hm, hcl, ham, hac, NewHelper, hnone]

/-- Witness for C8: with every collaborator present and a failing record
conversion, construction reports the wrapped helper-init failure. -/
theorem newMachineScope_helper_init_witness :
    NewMachineScope sampleEnvFail fullParams =
      Except.error (errWrap "failed to init patch helper" "conversion failed") :=
  (newMachineScope_helper_init sampleEnvFail fullParams sampleClient sampleMachine
    sampleCluster sampleAWSMachine sampleAWSCluster rfl rfl rfl rfl rfl).1
    "conversion failed" rfl

/-- C1: `Close()` performs exactly one conditional write of the
in-memory "after" machine record, whose patch is computed from the
before snapshot captured at construction against the current record; an
accepted write stores the after state; a rejected or failed write
returns a `CommitError` wrapping the backing store's cause and leaves
the store unchanged by that call; there is never more than the one call
(no internal retry). -/
theorem close_commit_spec (m : MachineScope) (store : Store) (resp : StoreResp) :
    ( MachineScope.Close m store resp).calls =
      [{ ctx := Ctx.todo, docBefore := m.patchHelper.beforeState,
         docAfter := m.AWSMachine }] ∧
    (resp = StoreResp.accepted →
      ( MachineScope.Close m store resp).result = Except.ok () ∧
      ( MachineScope.Close m store resp).store = { stored := some m.AWSMachine }) ∧
    (∀ c, resp = StoreResp.rejected c →
      ( MachineScope.Close m store resp).result =
        Except.error (CommitError.conflict c) ∧
      ( MachineScope.Close m store resp).store = store) ∧
    (∀ c, resp = StoreResp.failed c →
      ( MachineScope.Close m store resp).result =
        Except.error (CommitError.transport c) ∧
      ( MachineScope.Close m store resp).store = store) := by
  cases resp <;> simp [MachineScope.Close, PatchHelper.Patch]

/-- Witness for C1: a rejected conditional write on the sample scope
yields a conflict `CommitError` and leaves the sample store unchanged. -/
theorem close_commit_spec_witness :
    ( MachineScope.Close sampleScope sampleStore (StoreResp.rejected "modified")).result =
      Except.error (CommitError.conflict "modified") ∧
    ( MachineScope.Close sampleScope sampleStore (StoreResp.rejected "modified")).store =
      sampleStore :=
  (close_commit_spec sampleScope sampleStore (StoreResp.rejected "modified")).2.2.1
    "modified" rfl

/-- C9 counterexample: the one conditional write issued by `Close()` on
a concrete scope carries the fixed background `context.TODO()`, not a
caller-supplied cancellation/timeout context (`Close` accepts no context
argument at all), so the claim that a caller-supplied context is passed
through to the backing store is false. -/
theorem close_ctx_counterexample :
    ( MachineScope.Close sampleScope sampleStore StoreResp.accepted).calls.map
      (fun c => Ctx.isCallerSupplied c.ctx) = [false] := rfl

/-- C9 (amended): the conditional write issued by `Close()` always
carries the fixed background `context.TODO()`; no caller-supplied
cancellation/timeout context is threaded through to the backing store. -/
theorem close_passes_todo_ctx (m : MachineScope) (store : Store) (resp : StoreResp) :
    ( MachineScope.Close m store resp).calls.map (fun c => c.ctx) = [Ctx.todo] := by
  cases resp <;> simp [MachineScope.Close, PatchHelper.Patch]

/-- C3: `AdditionalTags()` returns a never-nil mapping equal to the
upsert-by-key merge of the cluster-level tags followed by the
machine-level tags: on every key the machine-level value wins when
present and the cluster-level value survives otherwise; on the sample
records (cluster env=prod, team=x; machine env=dev) it yields env=dev,
team=x. Repeated calls agree because the operation is a pure function of
the scope. -/
theorem additionalTags_spec (m : MachineScope) (k : String)
    (hc : keysNodup ((m.AWSCluster.Spec.AdditionalTags).getD []))
    (hm : keysNodup ((m.AWSMachine.Spec.AdditionalTags).getD [])) :
    ( MachineScope.AdditionalTags m).isSome = true ∧
    gmLookup ( MachineScope.AdditionalTags m) k =
      (match gmLookup m.AWSMachine.Spec.AdditionalTags k with
       | some v => some v
       | none => gmLookup m.AWSCluster.Spec.AdditionalTags k) ∧
    gmLookup ( MachineScope.AdditionalTags sampleScope) "env" = some "dev" ∧
    gmLookup ( MachineScope.AdditionalTags sampleScope) "team" = some "x" := by
  refine ⟨rfl, ?_, by decide, by decide⟩
  show mapLookup ( Tags.Merge ( Tags.Merge [] m.AWSCluster.Spec.AdditionalTags)
      m.AWSMachine.Spec.AdditionalTags) k = _
  rw [tagsMerge_lookup _ _ k hm]
  cases hmk : gmLookup m.AWSMachine.Spec.AdditionalTags k with
  | some v => simp
  | none =>
    simp only
    rw [tagsMerge_lookup [] _ k hc]
    cases hck : gmLookup m.AWSCluster.Spec.AdditionalTags k <;> simp [mapLookup]

/-- Witness for C3 at the sample scope: the machine-level value wins on
the colliding key and the cluster-only key survives. -/
theorem additionalTags_spec_witness :
    ( MachineScope.AdditionalTags sampleScope).isSome = true ∧
    gmLookup ( MachineScope.AdditionalTags sampleScope) "env" = some "dev" ∧
    gmLookup ( MachineScope.AdditionalTags sampleScope) "team" = some "x" := by
  have h := additionalTags_spec sampleScope "env" (by decide) (by decide)
  exact ⟨h.1, h.2.2.1, h.2.2.2⟩

/-- C10: every mutator changes only its own designated field of the
in-memory machine record — all other machine-record fields, the cluster
record, the owner machine, the cluster-level record and the captured
before snapshot (inside the patch helper) are unchanged, and no
backing-store interaction occurs (the mutators neither take nor produce
a store); `SetInstanceState` stores the by-value copy of its argument,
and `SetReady` only ever sets the ready flag to `true`. -/
theorem mutators_frame (m : MachineScope) (v : String) (s : InstanceState)
    (e : String) (r : MachineStatusError) (k val : String)
    (addrs : List NodeAddress) :
    (framePreserved m ( MachineScope.SetProviderID m v) ∧
      ( MachineScope.SetProviderID m v).AWSMachine.ObjectMeta =
        m.AWSMachine.ObjectMeta ∧
      ( MachineScope.SetProviderID m v).AWSMachine.Status = m.AWSMachine.Status ∧
      ( MachineScope.SetProviderID m v).AWSMachine.Spec.AdditionalTags =
        m.AWSMachine.Spec.AdditionalTags ∧
      ( MachineScope.SetProviderID m v).AWSMachine.Spec.ProviderID = some v) ∧
    (framePreserved m ( MachineScope.SetInstanceState m s) ∧
      ( MachineScope.SetInstanceState m s).AWSMachine.ObjectMeta =
        m.AWSMachine.ObjectMeta ∧
      ( MachineScope.SetInstanceState m s).AWSMachine.Spec = m.AWSMachine.Spec ∧
      ( MachineScope.SetInstanceState m s).AWSMachine.Status.Ready =
        m.AWSMachine.Status.Ready ∧
      ( MachineScope.SetInstanceState m s).AWSMachine.Status.Addresses =
        m.AWSMachine.Status.Addresses ∧
      ( MachineScope.SetInstanceState m s).AWSMachine.Status.ErrorReason =
        m.AWSMachine.Status.ErrorReason ∧
      ( MachineScope.SetInstanceState m s).AWSMachine.Status.ErrorMessage =
        m.AWSMachine.Status.ErrorMessage ∧
      ( MachineScope.SetInstanceState m s).AWSMachine.Status.InstanceState =
        some s) ∧
    (framePreserved m ( MachineScope.SetReady m) ∧
      ( MachineScope.SetReady m).AWSMachine.ObjectMeta = m.AWSMachine.ObjectMeta ∧
      ( MachineScope.SetReady m).AWSMachine.Spec = m.AWSMachine.Spec ∧
      ( MachineScope.SetReady m).AWSMachine.Status.Addresses =
        m.AWSMachine.Status.Addresses ∧
      ( MachineScope.SetReady m).AWSMachine.Status.ErrorReason =
        m.AWSMachine.Status.ErrorReason ∧
      ( MachineScope.SetReady m).AWSMachine.Status.ErrorMessage =
        m.AWSMachine.Status.ErrorMessage ∧
      ( MachineScope.SetReady m).AWSMachine.Status.InstanceState =
        m.AWSMachine.Status.InstanceState ∧
      ( MachineScope.SetReady m).AWSMachine.Status.Ready = true) ∧
    (framePreserved m ( MachineScope.SetErrorMessage m e) ∧
      ( MachineScope.SetErrorMessage m e).AWSMachine.ObjectMeta =
        m.AWSMachine.ObjectMeta ∧
      ( MachineScope.SetErrorMessage m e).AWSMachine.Spec = m.AWSMachine.Spec ∧
      ( MachineScope.SetErrorMessage m e).AWSMachine.Status.Ready =
        m.AWSMachine.Status.Ready ∧
      ( MachineScope.SetErrorMessage m e).AWSMachine.Status.Addresses =
        m.AWSMachine.Status.Addresses ∧
      ( MachineScope.SetErrorMessage m e).AWSMachine.Status.ErrorReason =
        m.AWSMachine.Status.ErrorReason ∧
      ( MachineScope.SetErrorMessage m e).AWSMachine.Status.InstanceState =
        m.AWSMachine.Status.InstanceState ∧
      ( MachineScope.SetErrorMessage m e).AWSMachine.Status.ErrorMessage =
        some e) ∧
    (framePreserved m ( MachineScope.SetErrorReason m r) ∧
      ( MachineScope.SetErrorReason m r).AWSMachine.ObjectMeta =
        m.AWSMachine.ObjectMeta ∧
      ( MachineScope.SetErrorReason m r).AWSMachine.Spec = m.AWSMachine.Spec ∧
      ( MachineScope.SetErrorReason m r).AWSMachine.Status.Ready =
        m.AWSMachine.Status.Ready ∧
      ( MachineScope.SetErrorReason m r).AWSMachine.Status.Addresses =
        m.AWSMachine.Status.Addresses ∧
      ( MachineScope.SetErrorReason m r).AWSMachine.Status.ErrorMessage =
        m.AWSMachine.Status.ErrorMessage ∧
      ( MachineScope.SetErrorReason m r).AWSMachine.Status.InstanceState =
        m.AWSMachine.Status.InstanceState ∧
      ( MachineScope.SetErrorReason m r).AWSMachine.Status.ErrorReason =
        some r) ∧
    (framePreserved m ( SetAnnotation m k val) ∧
      ( SetAnnotation m k val).AWSMachine.Spec = m.AWSMachine.Spec ∧
      ( SetAnnotation m k val).AWSMachine.Status = m.AWSMachine.Status ∧
      ( SetAnnotation m k val).AWSMachine.ObjectMeta.Name =
        m.AWSMachine.ObjectMeta.Name ∧
      ( SetAnnotation m k val).AWSMachine.ObjectMeta.Namespace =
        m.AWSMachine.ObjectMeta.Namespace ∧
      ( SetAnnotation m k val).AWSMachine.ObjectMeta.Labels =
        m.AWSMachine.ObjectMeta.Labels) ∧
    (framePreserved m ( MachineScope.SetAddresses m addrs) ∧
      ( MachineScope.SetAddresses m addrs).AWSMachine.ObjectMeta =
        m.AWSMachine.ObjectMeta ∧
      ( MachineScope.SetAddresses m addrs).AWSMachine.Spec = m.AWSMachine.Spec ∧
      ( MachineScope.SetAddresses m addrs).AWSMachine.Status.Ready =
        m.AWSMachine.Status.Ready ∧
      ( MachineScope.SetAddresses m addrs).AWSMachine.Status.ErrorReason =
        m.AWSMachine.Status.ErrorReason ∧
      ( MachineScope.SetAddresses m addrs).AWSMachine.Status.ErrorMessage =
        m.AWSMachine.Status.ErrorMessage ∧
      ( MachineScope.SetAddresses m addrs).AWSMachine.Status.InstanceState =
        m.AWSMachine.Status.InstanceState ∧
      ( MachineScope.SetAddresses m addrs).AWSMachine.Status.Addresses = addrs) := by
  refine ⟨?_, ?_, ?_, ?_, ?_, ?_, ?_⟩ <;>
    simp [framePreserved, MachineScope.SetProviderID, MachineScope.SetInstanceState,
      MachineScope.SetReady, MachineScope.SetErrorMessage, MachineScope.SetErrorReason,
      SetAnnotation, MachineScope.SetAddresses]
